import Mathlib

/-!
Verification of the urbs capacity-extension subsystem (oitzingermaximilian/urbs-extension).

This file gives a shallow embedding of the constraint rules of the capacity-extension
model (src/urbs/extension/stockpile.py, scrap.py, lr_remanufacturing.py, costs.py),
of the attribute environment built by sets_and_params.py / variables.py / model.py,
and of the rolling-horizon carry-over reader and result writer
(src/run_model.py, src/urbs/report.py), together with theorems settling the
frozen claims about them.

Solver reals are modelled as rationals.  A pyomo model instance together with one
assignment of its decision variables is a Model value; each pyomo constraint rule
becomes a satisfaction predicate transcribed from the corresponding apply_rule body.
-/

namespace UrbsExt

/-- Decidability of a Prop-valued if-then-else, used to evaluate the embedded
constraint rules on concrete model instances. -/
instance iteDecidable {c t e : Prop} [dc : Decidable c] [dt : Decidable t] [de : Decidable e] :
    Decidable (if c then t else e) :=
  match dc with
  | isTrue h => by rw [if_pos h]; exact dt
  | isFalse h => by rw [if_neg h]; exact de

/-- A model instance of the capacity-extension subsystem: the window index sets,
the exogenous parameters loaded by apply_sets_and_params
(src/urbs/extension/sets_and_params.py), and one assignment of the decision
variables declared by apply_variables (src/urbs/extension/variables.py).
Field names follow the pyomo attribute names of the source. -/
structure Model where
  /-- First year of the solved window (pyomo parameter y0). -/
  y0 : Int
  /-- Year set of the solved window (pyomo set stf). -/
  stf : List Int
  /-- Location set (pyomo set location). -/
  location : List String
  /-- Technology set (pyomo set tech). -/
  tech : List String
  -- parameters (sets_and_params.py)
  Installed_Capacity_Q_s : String → String → Rat
  Existing_Stock_Q_stock : String → String → Rat
  Q_ext_new : Int → String → String → Rat
  l : String → String → Int
  f_scrap : String → String → Rat
  f_mining : String → String → Rat
  f_recycling : String → String → Rat
  f_scrap_rec : Int → String → String → Rat
  f_increase : String → String → Rat
  scrap_total : String → String → Rat
  pricereduction_sec_init : String → String → Rat
  IMPORTCOST : Int → String → String → Rat
  logisticcost : String → String → Rat
  STORAGECOST : String → String → Rat
  EU_primary_costs : Int → String → String → Rat
  EU_secondary_costs : Int → String → String → Rat
  -- decision variables (variables.py), one assignment
  capacity_ext : Int → String → String → Rat
  capacity_ext_new : Int → String → String → Rat
  capacity_ext_imported : Int → String → String → Rat
  capacity_ext_stockout : Int → String → String → Rat
  capacity_ext_euprimary : Int → String → String → Rat
  capacity_ext_eusecondary : Int → String → String → Rat
  capacity_ext_stock : Int → String → String → Rat
  capacity_ext_stock_imported : Int → String → String → Rat
  anti_dumping_measures : Int → String → String → Rat
  capacity_dec : Int → String → String → Rat
  capacity_scrap_dec : Int → String → String → Rat
  capacity_scrap_rec : Int → String → String → Rat
  capacity_scrap_total : Int → String → String → Rat
  cost_scrap : Int → String → String → Rat
  pricereduction_sec : Int → String → String → Rat
  costs_new : String → Rat
  costs_ext_import : Int → String → String → Rat
  costs_ext_storage : Int → String → String → Rat
  costs_EU_primary : Int → String → String → Rat
  costs_EU_secondary : Int → String → String → Rat

/-- Domain restriction of variables.py: every decision variable modelled here is
declared with domain NonNegativeReals, so a feasible assignment is pointwise
non-negative. -/
def NonNegVars (m : Model) : Prop :=
  ∀ (stf : Int) (location tech : String),
    0 ≤ m.capacity_ext stf location tech ∧
    0 ≤ m.capacity_ext_new stf location tech ∧
    0 ≤ m.capacity_ext_imported stf location tech ∧
    0 ≤ m.capacity_ext_stockout stf location tech ∧
    0 ≤ m.capacity_ext_euprimary stf location tech ∧
    0 ≤ m.capacity_ext_eusecondary stf location tech ∧
    0 ≤ m.capacity_ext_stock stf location tech ∧
    0 ≤ m.capacity_ext_stock_imported stf location tech ∧
    0 ≤ m.anti_dumping_measures stf location tech ∧
    0 ≤ m.capacity_dec stf location tech ∧
    0 ≤ m.capacity_scrap_dec stf location tech ∧
    0 ≤ m.capacity_scrap_rec stf location tech ∧
    0 ≤ m.capacity_scrap_total stf location tech ∧
    0 ≤ m.cost_scrap stf location tech ∧
    0 ≤ m.pricereduction_sec stf location tech

/-- CapacityExtGrowthRule.apply_rule (stockpile.py, lines 20 to 41): in the start
year the extended capacity equals the installed-capacity parameter plus new
capacity minus decommissioned capacity; in later years the previous year's
extended capacity replaces the parameter. -/
def CapacityExtGrowthRule (m : Model) (stf : Int) (location tech : String) : Prop :=
  if stf = m.y0 then
    m.capacity_ext stf location tech =
      m.Installed_Capacity_Q_s location tech
      + m.capacity_ext_new stf location tech
      - m.capacity_dec stf location tech
  else
    m.capacity_ext stf location tech =
      m.capacity_ext (stf - 1) location tech
      + m.capacity_ext_new stf location tech
      - m.capacity_dec stf location tech

/-- CapacityExtNewRule.apply_rule (stockpile.py, lines 44 to 53): new capacity is
the sum of the four channel variables. -/
def CapacityExtNewRule (m : Model) (stf : Int) (location tech : String) : Prop :=
  m.capacity_ext_new stf location tech =
    m.capacity_ext_imported stf location tech
    + m.capacity_ext_stockout stf location tech
    + m.capacity_ext_euprimary stf location tech
    + m.capacity_ext_eusecondary stf location tech

/-- CapacityExtStockRule.apply_rule (stockpile.py, lines 56 to 73): stockpile
continuity, seeded from the Existing_Stock_Q_stock parameter in the start year. -/
def CapacityExtStockRule (m : Model) (stf : Int) (location tech : String) : Prop :=
  if stf = m.y0 then
    m.capacity_ext_stock stf location tech =
      m.Existing_Stock_Q_stock location tech
      + m.capacity_ext_stock_imported stf location tech
      - m.capacity_ext_stockout stf location tech
  else
    m.capacity_ext_stock stf location tech =
      m.capacity_ext_stock (stf - 1) location tech
      + m.capacity_ext_stock_imported stf location tech
      - m.capacity_ext_stockout stf location tech

/-- ConstraintMaxIntoStockRule.apply_rule (stockpile.py, lines 314 to 325): at most
half of the imported capacity may go into the stockpile. -/
def ConstraintMaxIntoStockRule (m : Model) (stf : Int) (location tech : String) : Prop :=
  m.capacity_ext_stock_imported stf location tech ≤
    (0.5 : Rat) * m.capacity_ext_imported stf location tech

/-- C1: for every (year, location, tech) with year above y0, the capacity-growth
constraint of stockpile.py forces the continuity recursion
capacity_ext y = capacity_ext (y-1) + capacity_ext_new y - capacity_dec y, and in
the base year it forces capacity_ext y0 = Installed_Capacity_Q_s +
capacity_ext_new y0 - capacity_dec y0. -/
theorem claim_C1_capacity_continuity (m : Model) (y : Int) (location tech : String)
    (h : CapacityExtGrowthRule m y location tech) :
    (m.y0 < y →
      m.capacity_ext y location tech =
        m.capacity_ext (y - 1) location tech
        + m.capacity_ext_new y location tech
        - m.capacity_dec y location tech) ∧
    (y = m.y0 →
      m.capacity_ext y location tech =
        m.Installed_Capacity_Q_s location tech
        + m.capacity_ext_new y location tech
        - m.capacity_dec y location tech) := by
  constructor
  · intro hy
    have hne : y ≠ m.y0 := ne_of_gt hy
    unfold CapacityExtGrowthRule at h
    rw [if_neg hne] at h
    exact h
  · intro hy
    unfold CapacityExtGrowthRule at h
    rw [if_pos hy] at h
    exact h

/-- Concrete model used by several witnesses: a one-location, one-technology
window 2024 to 2026 with an all-zero assignment and all-zero parameters. -/
def zeroModel : Model where
  y0 := 2024
  stf := [2024, 2025, 2026]
  location := ["EU27"]
  tech := ["solarPV"]
  Installed_Capacity_Q_s := fun _ _ => 0
  Existing_Stock_Q_stock := fun _ _ => 0
  Q_ext_new := fun _ _ _ => 0
  l := fun _ _ => 0
  f_scrap := fun _ _ => 0
  f_mining := fun _ _ => 0
  f_recycling := fun _ _ => 0
  f_scrap_rec := fun _ _ _ => 0
  f_increase := fun _ _ => 0
  scrap_total := fun _ _ => 0
  pricereduction_sec_init := fun _ _ => 0
  IMPORTCOST := fun _ _ _ => 0
  logisticcost := fun _ _ => 0
  STORAGECOST := fun _ _ => 0
  EU_primary_costs := fun _ _ _ => 0
  EU_secondary_costs := fun _ _ _ => 0
  capacity_ext := fun _ _ _ => 0
  capacity_ext_new := fun _ _ _ => 0
  capacity_ext_imported := fun _ _ _ => 0
  capacity_ext_stockout := fun _ _ _ => 0
  capacity_ext_euprimary := fun _ _ _ => 0
  capacity_ext_eusecondary := fun _ _ _ => 0
  capacity_ext_stock := fun _ _ _ => 0
  capacity_ext_stock_imported := fun _ _ _ => 0
  anti_dumping_measures := fun _ _ _ => 0
  capacity_dec := fun _ _ _ => 0
  capacity_scrap_dec := fun _ _ _ => 0
  capacity_scrap_rec := fun _ _ _ => 0
  capacity_scrap_total := fun _ _ _ => 0
  cost_scrap := fun _ _ _ => 0
  pricereduction_sec := fun _ _ _ => 0
  costs_new := fun _ => 0
  costs_ext_import := fun _ _ _ => 0
  costs_ext_storage := fun _ _ _ => 0
  costs_EU_primary := fun _ _ _ => 0
  costs_EU_secondary := fun _ _ _ => 0

/-- Witness for C1: the growth constraint of the all-zero model holds at 2025 and
the theorem yields the continuity recursion there. -/
theorem claim_C1_capacity_continuity_witness :
    (zeroModel.y0 < 2025 →
      zeroModel.capacity_ext 2025 "EU27" "solarPV" =
        zeroModel.capacity_ext (2025 - 1) "EU27" "solarPV"
        + zeroModel.capacity_ext_new 2025 "EU27" "solarPV"
        - zeroModel.capacity_dec 2025 "EU27" "solarPV") ∧
    (2025 = zeroModel.y0 →
      zeroModel.capacity_ext 2025 "EU27" "solarPV" =
        zeroModel.Installed_Capacity_Q_s "EU27" "solarPV"
        + zeroModel.capacity_ext_new 2025 "EU27" "solarPV"
        - zeroModel.capacity_dec 2025 "EU27" "solarPV") :=
  claim_C1_capacity_continuity zeroModel 2025 "EU27" "solarPV"
    (by norm_num [CapacityExtGrowthRule, zeroModel])

/-- C6: every assignment that satisfies the stockpile constraints of stockpile.py
and the variable domains of variables.py satisfies the stockpile continuity
equation (seeded from Existing_Stock_Q_stock in the window's first year), keeps
the stockpile non-negative, and sends at most half of the imported capacity into
the stockpile. -/
theorem claim_C6_stockpile_invariants (m : Model) (y : Int) (location tech : String)
    (hstock : CapacityExtStockRule m y location tech)
    (hcap : ConstraintMaxIntoStockRule m y location tech)
    (hdom : NonNegVars m) :
    (y = m.y0 →
      m.capacity_ext_stock y location tech =
        m.Existing_Stock_Q_stock location tech
        + m.capacity_ext_stock_imported y location tech
        - m.capacity_ext_stockout y location tech) ∧
    (y ≠ m.y0 →
      m.capacity_ext_stock y location tech =
        m.capacity_ext_stock (y - 1) location tech
        + m.capacity_ext_stock_imported y location tech
        - m.capacity_ext_stockout y location tech) ∧
    0 ≤ m.capacity_ext_stock y location tech ∧
    m.capacity_ext_stock_imported y location tech ≤
      (0.5 : Rat) * m.capacity_ext_imported y location tech := by
  refine ⟨?_, ?_, ?_, hcap⟩
  · intro hy
    unfold CapacityExtStockRule at hstock
    rw [if_pos hy] at hstock
    exact hstock
  · intro hy
    unfold CapacityExtStockRule at hstock
    rw [if_neg hy] at hstock
    exact hstock
  · exact ((((((hdom y location tech).2).2).2).2).2).2.1

/-- Witness for C6 at the all-zero model in its base year 2024. -/
theorem claim_C6_stockpile_invariants_witness :
    (2024 = zeroModel.y0 →
      zeroModel.capacity_ext_stock 2024 "EU27" "solarPV" =
        zeroModel.Existing_Stock_Q_stock "EU27" "solarPV"
        + zeroModel.capacity_ext_stock_imported 2024 "EU27" "solarPV"
        - zeroModel.capacity_ext_stockout 2024 "EU27" "solarPV") ∧
    ((2024 : Int) ≠ zeroModel.y0 →
      zeroModel.capacity_ext_stock 2024 "EU27" "solarPV" =
        zeroModel.capacity_ext_stock (2024 - 1) "EU27" "solarPV"
        + zeroModel.capacity_ext_stock_imported 2024 "EU27" "solarPV"
        - zeroModel.capacity_ext_stockout 2024 "EU27" "solarPV") ∧
    0 ≤ zeroModel.capacity_ext_stock 2024 "EU27" "solarPV" ∧
    zeroModel.capacity_ext_stock_imported 2024 "EU27" "solarPV" ≤
      (0.5 : Rat) * zeroModel.capacity_ext_imported 2024 "EU27" "solarPV" :=
  claim_C6_stockpile_invariants zeroModel 2024 "EU27" "solarPV"
    (by norm_num [CapacityExtStockRule, zeroModel])
    (by norm_num [ConstraintMaxIntoStockRule, zeroModel])
    (by intro s loc t; norm_num [zeroModel])

/-- Constraint emitted by relation_pnew_to_pprior_constraint_sec.apply_rule
(lr_remanufacturing.py, lines 77 to 110): none models pyomo.Constraint.Skip,
returned exactly when the year is the window's own first year y0; otherwise the
price reduction must not fall below the previous in-window year's value. -/
def relation_pnew_to_pprior_constraint_sec (m : Model) (stf : Int)
    (location tech : String) : Option Prop :=
  if stf = m.y0 then
    none
  else
    some (m.pricereduction_sec stf location tech ≥
      m.pricereduction_sec (stf - 1) location tech)

/-- Behaviour of the monotonicity constraint as asserted by claim C2 (from the
spec's words, for comparison with the source rule): skip only at the hard-coded
global first year 2024, and at a later window's own y0 compare against the
carried-over pricereduction_sec_init parameter. -/
def relation_pnew_to_pprior_claimed (m : Model) (stf : Int)
    (location tech : String) : Option Prop :=
  if stf = 2024 then
    none
  else if stf = m.y0 then
    some (m.pricereduction_sec stf location tech ≥
      m.pricereduction_sec_init location tech)
  else
    some (m.pricereduction_sec stf location tech ≥
      m.pricereduction_sec (stf - 1) location tech)

/-- Model of a rolling window starting at 2030 (later than the global epoch),
used to refute claim C2. -/
def windowModel2030 : Model := { zeroModel with y0 := 2030 }

/-- Counterexample to C2: in a window whose own first year is 2030, the source
rule skips the monotonicity constraint at stf = 2030, whereas the claim asserts a
constraint against pricereduction_sec_init is emitted there; the two behaviours
differ at this concrete input. -/
theorem claim_C2_counterexample :
    relation_pnew_to_pprior_constraint_sec windowModel2030 2030 "EU27" "solarPV" = none ∧
    (relation_pnew_to_pprior_claimed windowModel2030 2030 "EU27" "solarPV").isSome = true ∧
    relation_pnew_to_pprior_constraint_sec windowModel2030 2030 "EU27" "solarPV" ≠
      relation_pnew_to_pprior_claimed windowModel2030 2030 "EU27" "solarPV" := by
  refine ⟨?_, ?_, ?_⟩
  · norm_num [relation_pnew_to_pprior_constraint_sec, windowModel2030, zeroModel]
  · norm_num [relation_pnew_to_pprior_claimed, windowModel2030, zeroModel]
  · norm_num [relation_pnew_to_pprior_constraint_sec, relation_pnew_to_pprior_claimed,
      windowModel2030, zeroModel]
    exact fun h => Option.noConfusion h

/-- C2 as amended: the price-reduction monotonicity constraint is skipped exactly
at the window's own first year stf = y0, whether or not y0 equals the hard-coded
epoch 2024; every later year is constrained against the in-window previous year,
and the pricereduction_sec_init parameter is never referenced by this rule. -/
theorem claim_C2_monotonicity_skip (m : Model) (stf : Int) (location tech : String) :
    (stf = m.y0 →
      relation_pnew_to_pprior_constraint_sec m stf location tech = none) ∧
    (stf ≠ m.y0 →
      relation_pnew_to_pprior_constraint_sec m stf location tech =
        some (m.pricereduction_sec stf location tech ≥
          m.pricereduction_sec (stf - 1) location tech)) ∧
    (∀ f : String → String → Rat,
      relation_pnew_to_pprior_constraint_sec { m with pricereduction_sec_init := f }
          stf location tech =
        relation_pnew_to_pprior_constraint_sec m stf location tech) := by
  refine ⟨?_, ?_, ?_⟩
  · intro hy
    unfold relation_pnew_to_pprior_constraint_sec
    rw [if_pos hy]
  · intro hy
    unfold relation_pnew_to_pprior_constraint_sec
    rw [if_neg hy]
  · intro f
    unfold relation_pnew_to_pprior_constraint_sec
    rfl

/-- Witness for the amended C2: at the 2030 window the constraint is skipped at
2030 and emitted at 2031, and replacing pricereduction_sec_init changes nothing. -/
theorem claim_C2_monotonicity_skip_witness :
    relation_pnew_to_pprior_constraint_sec windowModel2030 2030 "EU27" "solarPV" = none ∧
    relation_pnew_to_pprior_constraint_sec windowModel2030 2031 "EU27" "solarPV" =
      some (windowModel2030.pricereduction_sec 2031 "EU27" "solarPV" ≥
        windowModel2030.pricereduction_sec (2031 - 1) "EU27" "solarPV") ∧
    relation_pnew_to_pprior_constraint_sec
        { windowModel2030 with pricereduction_sec_init := fun _ _ => 7 }
        2031 "EU27" "solarPV" =
      relation_pnew_to_pprior_constraint_sec windowModel2030 2031 "EU27" "solarPV" :=
  ⟨(claim_C2_monotonicity_skip windowModel2030 2030 "EU27" "solarPV").1
      (by norm_num [windowModel2030, zeroModel]),
   (claim_C2_monotonicity_skip windowModel2030 2031 "EU27" "solarPV").2.1
      (by norm_num [windowModel2030, zeroModel]),
   (claim_C2_monotonicity_skip windowModel2030 2031 "EU27" "solarPV").2.2
      (fun _ _ => 7)⟩

/-- Exogenous decommissioning floor computed at the top of
decommissioned_capacity_rule.apply_rule (scrap.py, lines 29 to 34).  The source
first assigns 7.5 * 1000 when tech is solarPV, but the following if/else pair is
a separate statement (if, not elif) and unconditionally reassigns: 5 * 1000 for
windon and 2 * 1000 for every other technology, including solarPV, so the solarPV
assignment is a dead store. -/
def decommissioned_exogenous (tech : String) : Rat :=
  if tech = "windon" then 5 * 1000 else 2 * 1000

/-- decommissioned_capacity_rule.apply_rule (scrap.py, lines 12 to 46): when the
installation year of the retiring cohort lies in the window, decommissioning
equals the new capacity installed lifetime years earlier; otherwise it equals the
exogenous floor plus 0.00000015 times the year's own new capacity. -/
def decommissioned_capacity_rule (m : Model) (stf : Int) (location tech : String) : Prop :=
  if m.y0 ≤ stf - m.l location tech then
    m.capacity_dec stf location tech =
      m.capacity_ext_new (stf - m.l location tech) location tech
  else
    m.capacity_dec stf location tech =
      decommissioned_exogenous tech
      + (0.00000015 : Rat) * m.capacity_ext_new stf location tech

/-- capacity_scrap_dec_rule.apply_rule (scrap.py, lines 49 to 70). -/
def capacity_scrap_dec_rule (m : Model) (stf : Int) (location tech : String) : Prop :=
  m.capacity_scrap_dec stf location tech =
    m.f_scrap location tech * m.capacity_dec stf location tech

/-- capacity_scrap_rec_rule.apply_rule (scrap.py, lines 73 to 78): recovered scrap
is the mining factor divided by the recycling efficiency, times the EU-secondary
capacity. -/
def capacity_scrap_rec_rule (m : Model) (stf : Int) (location tech : String) : Prop :=
  m.capacity_scrap_rec stf location tech =
    m.f_mining location tech / m.f_recycling location tech
      * m.capacity_ext_eusecondary stf location tech

/-- capacity_scrap_total_rule.apply_rule (scrap.py, lines 81 to 90): only active in
the window's first year, where the scrap total equals that year's scrapped minus
recovered amount, with no seed term; all other years are pyomo.Constraint.Skip,
modelled as True. -/
def capacity_scrap_total_rule (m : Model) (stf : Int) (location tech : String) : Prop :=
  if stf = m.y0 then
    m.capacity_scrap_total stf location tech =
      m.capacity_scrap_dec stf location tech
      - m.capacity_scrap_rec stf location tech
  else
    True

/-- capacity_scrap_total_rule2.apply_rule (scrap.py, lines 93 to 103): the scrap
recursion for all years after the window's first year. -/
def capacity_scrap_total_rule2 (m : Model) (stf : Int) (location tech : String) : Prop :=
  if stf = m.y0 then
    True
  else
    m.capacity_scrap_total stf location tech =
      m.capacity_scrap_total (stf - 1) location tech
      + m.capacity_scrap_dec stf location tech
      - m.capacity_scrap_rec stf location tech

/-- cost_scrap_rule.apply_rule (scrap.py, lines 106 to 112). -/
def cost_scrap_rule (m : Model) (stf : Int) (location tech : String) : Prop :=
  m.cost_scrap stf location tech =
    m.f_scrap_rec stf location tech * m.capacity_scrap_rec stf location tech

/-- scrap_recycling_increase_rule.apply_rule (scrap.py, lines 149 to 162). -/
def scrap_recycling_increase_rule (m : Model) (stf : Int) (location tech : String) : Prop :=
  if stf = m.y0 then
    True
  else
    m.capacity_scrap_rec stf location tech
      - m.capacity_scrap_rec (stf - 1) location tech ≤
      m.f_increase location tech * m.capacity_scrap_rec (stf - 1) location tech

/-- Constraint family attached by apply_scrap_constraints (scrap.py, lines 165 to
221): every enabled scrap rule, indexed over the window's stf, location and tech
sets (scrap_total_decrease_rule is commented out in the source and not included). -/
def ScrapConstraints (m : Model) : Prop :=
  ∀ stf ∈ m.stf, ∀ location ∈ m.location, ∀ tech ∈ m.tech,
    decommissioned_capacity_rule m stf location tech ∧
    capacity_scrap_dec_rule m stf location tech ∧
    capacity_scrap_rec_rule m stf location tech ∧
    capacity_scrap_total_rule m stf location tech ∧
    capacity_scrap_total_rule2 m stf location tech ∧
    cost_scrap_rule m stf location tech ∧
    scrap_recycling_increase_rule m stf location tech

/-- Single-year window model with a nonzero carried-over scrap_total parameter,
used to refute the seeding part of claim C3.  The satisfying assignment has
capacity_ext_new = capacity_dec = 3, scrap factor 1, mining factor 1, recycling
efficiency 1, EU-secondary capacity 1, hence scrap_dec = 3 and scrap_rec = 1. -/
def scrapSeedModel : Model :=
  { zeroModel with
    stf := [2024]
    tech := ["windoff"]
    f_scrap := fun _ _ => 1
    f_mining := fun _ _ => 1
    f_recycling := fun _ _ => 1
    scrap_total := fun _ _ => 5
    capacity_ext_new := fun _ _ _ => 3
    capacity_dec := fun _ _ _ => 3
    capacity_ext_eusecondary := fun _ _ _ => 1
    capacity_scrap_dec := fun _ _ _ => 3
    capacity_scrap_rec := fun _ _ _ => 1
    capacity_scrap_total := fun _ _ _ => 2 }

/-- Counterexample to C3: an assignment satisfying every scrap constraint of
scrap.py on a window whose carried-over scrap_total parameter is 5, whose first
year scrap total nevertheless equals ScrapDec - ScrapRec with no seed term, so
the claimed seeded equation fails. -/
theorem claim_C3_counterexample :
    ScrapConstraints scrapSeedModel ∧
    scrapSeedModel.scrap_total "EU27" "windoff" = 5 ∧
    ¬ (scrapSeedModel.capacity_scrap_total 2024 "EU27" "windoff" =
        scrapSeedModel.scrap_total "EU27" "windoff"
        + scrapSeedModel.capacity_scrap_dec 2024 "EU27" "windoff"
        - scrapSeedModel.capacity_scrap_rec 2024 "EU27" "windoff") := by
  refine ⟨?_, by norm_num [scrapSeedModel, zeroModel], ?_⟩
  · intro y hy loc hl t ht
    simp only [scrapSeedModel, zeroModel, List.mem_singleton] at hy hl ht
    subst hy; subst hl; subst ht
    refine ⟨?_, ?_, ?_, ?_, ?_, ?_, ?_⟩ <;>
      norm_num [decommissioned_capacity_rule, capacity_scrap_dec_rule,
        capacity_scrap_rec_rule, capacity_scrap_total_rule, capacity_scrap_total_rule2,
        cost_scrap_rule, scrap_recycling_increase_rule, scrapSeedModel, zeroModel]
  · norm_num [scrapSeedModel, zeroModel]

/-- C3 as amended: for every (location, tech) the scrap constraints force
ScrapTotal y = ScrapTotal (y-1) + ScrapDec y - ScrapRec y for every year
y different from y0, and at the window's first year they force
ScrapTotal y0 = ScrapDec y0 - ScrapRec y0 with no seed term: the carried-over
scrap_total parameter is not referenced. -/
theorem claim_C3_scrap_recursion (m : Model) (y : Int) (location tech : String)
    (hs : ScrapConstraints m) (hy : y ∈ m.stf)
    (hl : location ∈ m.location) (ht : tech ∈ m.tech) :
    (y = m.y0 →
      m.capacity_scrap_total y location tech =
        m.capacity_scrap_dec y location tech
        - m.capacity_scrap_rec y location tech) ∧
    (y ≠ m.y0 →
      m.capacity_scrap_total y location tech =
        m.capacity_scrap_total (y - 1) location tech
        + m.capacity_scrap_dec y location tech
        - m.capacity_scrap_rec y location tech) := by
  obtain ⟨-, -, -, h4, h5, -, -⟩ := hs y hy location hl tech ht
  constructor
  · intro hy0
    unfold capacity_scrap_total_rule at h4
    rw [if_pos hy0] at h4
    exact h4
  · intro hy0
    unfold capacity_scrap_total_rule2 at h5
    rw [if_neg hy0] at h5
    exact h5

/-- Witness for the amended C3 at the concrete single-year scrap model. -/
theorem claim_C3_scrap_recursion_witness :
    ((2024 : Int) = scrapSeedModel.y0 →
      scrapSeedModel.capacity_scrap_total 2024 "EU27" "windoff" =
        scrapSeedModel.capacity_scrap_dec 2024 "EU27" "windoff"
        - scrapSeedModel.capacity_scrap_rec 2024 "EU27" "windoff") ∧
    ((2024 : Int) ≠ scrapSeedModel.y0 →
      scrapSeedModel.capacity_scrap_total 2024 "EU27" "windoff" =
        scrapSeedModel.capacity_scrap_total (2024 - 1) "EU27" "windoff"
        + scrapSeedModel.capacity_scrap_dec 2024 "EU27" "windoff"
        - scrapSeedModel.capacity_scrap_rec 2024 "EU27" "windoff") :=
  claim_C3_scrap_recursion scrapSeedModel 2024 "EU27" "windoff"
    (by
      intro y hy loc hl t ht
      simp only [scrapSeedModel, zeroModel, List.mem_singleton] at hy hl ht
      subst hy; subst hl; subst ht
      refine ⟨?_, ?_, ?_, ?_, ?_, ?_, ?_⟩ <;>
        norm_num [decommissioned_capacity_rule, capacity_scrap_dec_rule,
          capacity_scrap_rec_rule, capacity_scrap_total_rule, capacity_scrap_total_rule2,
          cost_scrap_rule, scrap_recycling_increase_rule, scrapSeedModel, zeroModel])
    (by norm_num [scrapSeedModel, zeroModel])
    (by norm_num [scrapSeedModel, zeroModel])
    (by norm_num [scrapSeedModel, zeroModel])

/-- Single-year window model in the legacy-floor branch (lifetime 10, so
2024 - 10 lies before y0), with zero new capacity; the decommissioning
constraint forces capacity_dec = 2000. -/
def floorModelZeroNew : Model :=
  { zeroModel with
    stf := [2024]
    l := fun _ _ => 10
    capacity_dec := fun _ _ _ => 2000 }

/-- The same window and parameters as floorModelZeroNew, but with new capacity
10000000000; the decommissioning constraint now forces
capacity_dec = 2000 + 0.00000015 * 10000000000 = 3500. -/
def floorModelLargeNew : Model :=
  { zeroModel with
    stf := [2024]
    l := fun _ _ => 10
    capacity_ext_new := fun _ _ _ => 10000000000
    capacity_dec := fun _ _ _ => 3500 }

/-- Counterexample to C4: the exogenous floor actually used for solarPV is 2000,
identical to the generic floor (the 7500 solarPV assignment in the source is dead);
and the floor branch of the constraint depends on the decision variable
capacity_ext_new: two assignments differing only in capacity_ext_new both satisfy
every scrap constraint, yet are forced to different decommissioning values. -/
theorem claim_C4_counterexample :
    decommissioned_exogenous "solarPV" = 2000 ∧
    decommissioned_exogenous "solarPV" = decommissioned_exogenous "windoff" ∧
    ScrapConstraints floorModelZeroNew ∧
    ScrapConstraints floorModelLargeNew ∧
    floorModelZeroNew.capacity_dec 2024 "EU27" "solarPV" = 2000 ∧
    floorModelLargeNew.capacity_dec 2024 "EU27" "solarPV" = 3500 := by
  refine ⟨by simp [decommissioned_exogenous]; norm_num,
    by simp [decommissioned_exogenous],
    ?_, ?_, by norm_num [floorModelZeroNew, zeroModel], by norm_num [floorModelLargeNew, zeroModel]⟩
  · intro y hy loc hl t ht
    simp only [floorModelZeroNew, zeroModel, List.mem_singleton] at hy hl ht
    subst hy; subst hl; subst ht
    refine ⟨?_, ?_, ?_, ?_, ?_, ?_, ?_⟩ <;>
      simp [decommissioned_capacity_rule, decommissioned_exogenous,
        capacity_scrap_dec_rule, capacity_scrap_rec_rule, capacity_scrap_total_rule,
        capacity_scrap_total_rule2, cost_scrap_rule, scrap_recycling_increase_rule,
        floorModelZeroNew, zeroModel] <;>
      norm_num
  · intro y hy loc hl t ht
    simp only [floorModelLargeNew, zeroModel, List.mem_singleton] at hy hl ht
    subst hy; subst hl; subst ht
    refine ⟨?_, ?_, ?_, ?_, ?_, ?_, ?_⟩ <;>
      simp [decommissioned_capacity_rule, decommissioned_exogenous,
        capacity_scrap_dec_rule, capacity_scrap_rec_rule, capacity_scrap_total_rule,
        capacity_scrap_total_rule2, cost_scrap_rule, scrap_recycling_increase_rule,
        floorModelLargeNew, zeroModel] <;>
      norm_num

/-- C4 as amended: under the scrap constraints, if year - lifetime lies in the
window then Decommissioned equals the new capacity installed lifetime years
earlier; otherwise Decommissioned equals the exogenous floor plus 0.00000015
times the year's own new capacity, where the floor is 5000 for windon and 2000
for every other technology, solarPV included. -/
theorem claim_C4_decommissioned_rule (m : Model) (y : Int) (location tech : String)
    (hs : ScrapConstraints m) (hy : y ∈ m.stf)
    (hl : location ∈ m.location) (ht : tech ∈ m.tech) :
    (m.y0 ≤ y - m.l location tech →
      m.capacity_dec y location tech =
        m.capacity_ext_new (y - m.l location tech) location tech) ∧
    (¬ m.y0 ≤ y - m.l location tech →
      m.capacity_dec y location tech =
        decommissioned_exogenous tech
        + (0.00000015 : Rat) * m.capacity_ext_new y location tech) ∧
    (tech = "windon" → decommissioned_exogenous tech = 5000) ∧
    (tech ≠ "windon" → decommissioned_exogenous tech = 2000) := by
  obtain ⟨h1, -, -, -, -, -, -⟩ := hs y hy location hl tech ht
  refine ⟨?_, ?_, ?_, ?_⟩
  · intro hc
    unfold decommissioned_capacity_rule at h1
    rw [if_pos hc] at h1
    exact h1
  · intro hc
    unfold decommissioned_capacity_rule at h1
    rw [if_neg hc] at h1
    exact h1
  · intro hw
    unfold decommissioned_exogenous
    rw [if_pos hw]
    norm_num
  · intro hw
    unfold decommissioned_exogenous
    rw [if_neg hw]
    norm_num

/-- Witness for the amended C4 at the concrete floor-branch model. -/
theorem claim_C4_decommissioned_rule_witness :
    (floorModelZeroNew.y0 ≤ 2024 - floorModelZeroNew.l "EU27" "solarPV" →
      floorModelZeroNew.capacity_dec 2024 "EU27" "solarPV" =
        floorModelZeroNew.capacity_ext_new
          (2024 - floorModelZeroNew.l "EU27" "solarPV") "EU27" "solarPV") ∧
    (¬ floorModelZeroNew.y0 ≤ 2024 - floorModelZeroNew.l "EU27" "solarPV" →
      floorModelZeroNew.capacity_dec 2024 "EU27" "solarPV" =
        decommissioned_exogenous "solarPV"
        + (0.00000015 : Rat) * floorModelZeroNew.capacity_ext_new 2024 "EU27" "solarPV") ∧
    (("solarPV" : String) = "windon" → decommissioned_exogenous "solarPV" = 5000) ∧
    (("solarPV" : String) ≠ "windon" → decommissioned_exogenous "solarPV" = 2000) :=
  claim_C4_decommissioned_rule floorModelZeroNew 2024 "EU27" "solarPV"
    (by
      intro y hy loc hl t ht
      simp only [floorModelZeroNew, zeroModel, List.mem_singleton] at hy hl ht
      subst hy; subst hl; subst ht
      refine ⟨?_, ?_, ?_, ?_, ?_, ?_, ?_⟩ <;>
        simp [decommissioned_capacity_rule, decommissioned_exogenous,
          capacity_scrap_dec_rule, capacity_scrap_rec_rule, capacity_scrap_total_rule,
          capacity_scrap_total_rule2, cost_scrap_rule, scrap_recycling_increase_rule,
          floorModelZeroNew, zeroModel] <;>
        norm_num)
    (by norm_num [floorModelZeroNew, zeroModel])
    (by norm_num [floorModelZeroNew, zeroModel])
    (by norm_num [floorModelZeroNew, zeroModel])

/-- Single-year window model whose mining factor 3 differs from its scrap factor
2, used to refute the factor named in claim C5; the satisfying assignment has
EU-secondary capacity 1 and recovered scrap 3 = (3 / 1) * 1. -/
def miningFactorModel : Model :=
  { zeroModel with
    stf := [2024]
    f_scrap := fun _ _ => 2
    f_mining := fun _ _ => 3
    f_recycling := fun _ _ => 1
    capacity_ext_eusecondary := fun _ _ _ => 1
    capacity_scrap_rec := fun _ _ _ => 3
    capacity_scrap_total := fun _ _ _ => -3
    capacity_dec := fun _ _ _ => 0 }

/-- Counterexample to C5: an assignment satisfying capacity_scrap_rec_rule whose
recovered scrap equals (f_mining / f_recycling) * EUSecondary = 3, not
(f_scrap / f_recycling) * EUSecondary = 2: the rule uses the mining factor, not
the scrap factor. -/
theorem claim_C5_counterexample :
    capacity_scrap_rec_rule miningFactorModel 2024 "EU27" "solarPV" ∧
    miningFactorModel.f_scrap "EU27" "solarPV" = 2 ∧
    miningFactorModel.f_mining "EU27" "solarPV" = 3 ∧
    ¬ (miningFactorModel.capacity_scrap_rec 2024 "EU27" "solarPV" =
        miningFactorModel.f_scrap "EU27" "solarPV"
          / miningFactorModel.f_recycling "EU27" "solarPV"
          * miningFactorModel.capacity_ext_eusecondary 2024 "EU27" "solarPV") := by
  refine ⟨?_, ?_, ?_, ?_⟩
  · norm_num [capacity_scrap_rec_rule, miningFactorModel, zeroModel]
  · norm_num [miningFactorModel, zeroModel]
  · norm_num [miningFactorModel, zeroModel]
  · intro h
    norm_num [miningFactorModel, zeroModel] at h

/-- C5 as amended: under the scrap constraints, the recovered-scrap variable
capacity_scrap_rec equals the mining factor f_mining divided by the recycling
efficiency f_recycling, times the EU-secondary capacity of that year. -/
theorem claim_C5_scrap_rec (m : Model) (y : Int) (location tech : String)
    (hs : ScrapConstraints m) (hy : y ∈ m.stf)
    (hl : location ∈ m.location) (ht : tech ∈ m.tech) :
    m.capacity_scrap_rec y location tech =
      m.f_mining location tech / m.f_recycling location tech
        * m.capacity_ext_eusecondary y location tech := by
  obtain ⟨-, -, h3, -, -, -, -⟩ := hs y hy location hl tech ht
  exact h3

/-- Witness for the amended C5 at the concrete mining-factor model. -/
theorem claim_C5_scrap_rec_witness :
    miningFactorModel.capacity_scrap_rec 2024 "EU27" "solarPV" =
      miningFactorModel.f_mining "EU27" "solarPV"
        / miningFactorModel.f_recycling "EU27" "solarPV"
        * miningFactorModel.capacity_ext_eusecondary 2024 "EU27" "solarPV" :=
  claim_C5_scrap_rec miningFactorModel 2024 "EU27" "solarPV"
    (by
      intro y hy loc hl t ht
      simp only [miningFactorModel, zeroModel, List.mem_singleton] at hy hl ht
      subst hy; subst hl; subst ht
      refine ⟨?_, ?_, ?_, ?_, ?_, ?_, ?_⟩ <;>
        norm_num [decommissioned_capacity_rule, decommissioned_exogenous,
          capacity_scrap_dec_rule, capacity_scrap_rec_rule, capacity_scrap_total_rule,
          capacity_scrap_total_rule2, cost_scrap_rule, scrap_recycling_increase_rule,
          miningFactorModel, zeroModel])
    (by norm_num [miningFactorModel, zeroModel])
    (by norm_num [miningFactorModel, zeroModel])
    (by norm_num [miningFactorModel, zeroModel])

/-- Yearly import-cost expression of costs.py (import price on imported plus
stock-imported capacity, logistics cost on stock-imported capacity, anti-dumping
measures), shared verbatim by CalculateYearlyImportCost.apply_rule and the
Importcost branch of DefCostsNew.apply_rule. -/
def import_cost_value (m : Model) (stf : Int) (site tech : String) : Rat :=
  m.IMPORTCOST stf site tech
    * (m.capacity_ext_imported stf site tech + m.capacity_ext_stock_imported stf site tech)
  + m.capacity_ext_stock_imported stf site tech * m.logisticcost site tech
  + m.anti_dumping_measures stf site tech

/-- Yearly storage-cost expression of costs.py. -/
def storage_cost_value (m : Model) (stf : Int) (site tech : String) : Rat :=
  m.STORAGECOST site tech * m.capacity_ext_stock stf site tech

/-- Yearly EU-primary manufacturing cost expression of costs.py. -/
def eu_primary_cost_value (m : Model) (stf : Int) (site tech : String) : Rat :=
  m.EU_primary_costs stf site tech * m.capacity_ext_euprimary stf site tech

/-- Yearly EU-secondary cost expression of costs.py: remanufacturing cost net of
the price reduction, times secondary capacity, plus the scrap cost. -/
def eu_secondary_cost_value (m : Model) (stf : Int) (site tech : String) : Rat :=
  (m.EU_secondary_costs stf site tech - m.pricereduction_sec stf site tech)
    * m.capacity_ext_eusecondary stf site tech
  + m.cost_scrap stf site tech

/-- Sum of a (year, location, tech)-indexed expression over the model's index
sets, as produced by the generator sums in costs.py. -/
def sum3 (ys : List Int) (ls ts : List String) (f : Int → String → String → Rat) : Rat :=
  (ys.map (fun y => (ls.map (fun loc => (ts.map (fun t => f y loc t)).sum)).sum)).sum

/-- CalculateYearlyImportCost.apply_rule (costs.py, lines 100 to 119). -/
def CalculateYearlyImportCost (m : Model) (stf : Int) (location tech : String) : Prop :=
  m.costs_ext_import stf location tech = import_cost_value m stf location tech

/-- CalculateYearlyStorageCost.apply_rule (costs.py, lines 122 to 132). -/
def CalculateYearlyStorageCost (m : Model) (stf : Int) (location tech : String) : Prop :=
  m.costs_ext_storage stf location tech = storage_cost_value m stf location tech

/-- CalculateYearlyEUPrimary.apply_rule (costs.py, lines 135 to 146). -/
def CalculateYearlyEUPrimary (m : Model) (stf : Int) (location tech : String) : Prop :=
  m.costs_EU_primary stf location tech = eu_primary_cost_value m stf location tech

/-- CalculateYearlyEUSecondary.apply_rule (costs.py, lines 149 to 162). -/
def CalculateYearlyEUSecondary (m : Model) (stf : Int) (location tech : String) : Prop :=
  m.costs_EU_secondary stf location tech = eu_secondary_cost_value m stf location tech

/-- The four yearly cost constraint families attached by apply_costs_constraints
(costs.py, lines 165 to 184), indexed over stf, location and tech. -/
def YearlyCostConstraints (m : Model) : Prop :=
  ∀ stf ∈ m.stf, ∀ location ∈ m.location, ∀ tech ∈ m.tech,
    CalculateYearlyImportCost m stf location tech ∧
    CalculateYearlyStorageCost m stf location tech ∧
    CalculateYearlyEUPrimary m stf location tech ∧
    CalculateYearlyEUSecondary m stf location tech

/-- DefCostsNew.apply_rule (costs.py, lines 19 to 97): dispatch on the cost type
string; an unknown cost type raises NotImplementedError, modelled as none. -/
def DefCostsNew (m : Model) (cost_type_new : String) : Option Prop :=
  if cost_type_new = "Importcost" then
    some (m.costs_new cost_type_new = sum3 m.stf m.location m.tech (import_cost_value m))
  else if cost_type_new = "Storagecost" then
    some (m.costs_new cost_type_new = sum3 m.stf m.location m.tech (storage_cost_value m))
  else if cost_type_new = "Eu Cost Primary" then
    some (m.costs_new cost_type_new = sum3 m.stf m.location m.tech (eu_primary_cost_value m))
  else if cost_type_new = "Eu Cost Secondary" then
    some (m.costs_new cost_type_new = sum3 m.stf m.location m.tech (eu_secondary_cost_value m))
  else
    none

/-- Satisfaction of an optionally emitted constraint; a rule whose construction
raises is never satisfied. -/
def OptionRuleHolds : Option Prop → Prop
  | some p => p
  | none => False

/-- Congruence of list sums under a pointwise equal map. -/
theorem sum_map_congr {α : Type} (xs : List α) (f g : α → Rat)
    (h : ∀ x ∈ xs, f x = g x) : (xs.map f).sum = (xs.map g).sum := by
  induction xs with
  | nil => rfl
  | cons a as ih =>
      simp only [List.map_cons, List.sum_cons]
      rw [h a (List.mem_cons_self a as), ih (fun x hx => h x (List.mem_cons_of_mem a hx))]

/-- Congruence of the triple-indexed sum under pointwise equal expressions. -/
theorem sum3_congr (ys : List Int) (ls ts : List String)
    (f g : Int → String → String → Rat)
    (h : ∀ y ∈ ys, ∀ loc ∈ ls, ∀ t ∈ ts, f y loc t = g y loc t) :
    sum3 ys ls ts f = sum3 ys ls ts g := by
  unfold sum3
  refine sum_map_congr ys _ _ (fun y hy => ?_)
  refine sum_map_congr ls _ _ (fun loc hl => ?_)
  exact sum_map_congr ts _ _ (fun t ht => h y hy loc hl t ht)

/-- C7: every assignment satisfying the four per-year cost constraint families
and the four aggregate cost constraints of costs.py has each horizon aggregate
costs_new equal to the sum, over all (year, location, tech), of the matching
yearly cost variable. -/
theorem claim_C7_cost_aggregation (m : Model)
    (hyearly : YearlyCostConstraints m)
    (h1 : OptionRuleHolds (DefCostsNew m "Importcost"))
    (h2 : OptionRuleHolds (DefCostsNew m "Storagecost"))
    (h3 : OptionRuleHolds (DefCostsNew m "Eu Cost Primary"))
    (h4 : OptionRuleHolds (DefCostsNew m "Eu Cost Secondary")) :
    m.costs_new "Importcost" = sum3 m.stf m.location m.tech m.costs_ext_import ∧
    m.costs_new "Storagecost" = sum3 m.stf m.location m.tech m.costs_ext_storage ∧
    m.costs_new "Eu Cost Primary" = sum3 m.stf m.location m.tech m.costs_EU_primary ∧
    m.costs_new "Eu Cost Secondary" = sum3 m.stf m.location m.tech m.costs_EU_secondary := by
  simp [DefCostsNew, OptionRuleHolds] at h1 h2 h3 h4
  refine ⟨?_, ?_, ?_, ?_⟩
  · rw [h1]
    exact (sum3_congr m.stf m.location m.tech m.costs_ext_import (import_cost_value m)
      (fun y hy loc hl t ht => (hyearly y hy loc hl t ht).1)).symm
  · rw [h2]
    exact (sum3_congr m.stf m.location m.tech m.costs_ext_storage (storage_cost_value m)
      (fun y hy loc hl t ht => (hyearly y hy loc hl t ht).2.1)).symm
  · rw [h3]
    exact (sum3_congr m.stf m.location m.tech m.costs_EU_primary (eu_primary_cost_value m)
      (fun y hy loc hl t ht => (hyearly y hy loc hl t ht).2.2.1)).symm
  · rw [h4]
    exact (sum3_congr m.stf m.location m.tech m.costs_EU_secondary (eu_secondary_cost_value m)
      (fun y hy loc hl t ht => (hyearly y hy loc hl t ht).2.2.2)).symm

/-- Witness for C7 at the all-zero model on its three-year window. -/
theorem claim_C7_cost_aggregation_witness :
    zeroModel.costs_new "Importcost" =
      sum3 zeroModel.stf zeroModel.location zeroModel.tech zeroModel.costs_ext_import ∧
    zeroModel.costs_new "Storagecost" =
      sum3 zeroModel.stf zeroModel.location zeroModel.tech zeroModel.costs_ext_storage ∧
    zeroModel.costs_new "Eu Cost Primary" =
      sum3 zeroModel.stf zeroModel.location zeroModel.tech zeroModel.costs_EU_primary ∧
    zeroModel.costs_new "Eu Cost Secondary" =
      sum3 zeroModel.stf zeroModel.location zeroModel.tech zeroModel.costs_EU_secondary :=
  claim_C7_cost_aggregation zeroModel
    (by
      intro y hy loc hl t ht
      refine ⟨?_, ?_, ?_, ?_⟩ <;>
        norm_num [CalculateYearlyImportCost, CalculateYearlyStorageCost,
          CalculateYearlyEUPrimary, CalculateYearlyEUSecondary, import_cost_value,
          storage_cost_value, eu_primary_cost_value, eu_secondary_cost_value, zeroModel])
    (by simp [DefCostsNew, OptionRuleHolds, sum3, import_cost_value, storage_cost_value,
      eu_primary_cost_value, eu_secondary_cost_value, zeroModel])
    (by simp [DefCostsNew, OptionRuleHolds, sum3, import_cost_value, storage_cost_value,
      eu_primary_cost_value, eu_secondary_cost_value, zeroModel])
    (by simp [DefCostsNew, OptionRuleHolds, sum3, import_cost_value, storage_cost_value,
      eu_primary_cost_value, eu_secondary_cost_value, zeroModel])
    (by simp [DefCostsNew, OptionRuleHolds, sum3, import_cost_value, storage_cost_value,
      eu_primary_cost_value, eu_secondary_cost_value, zeroModel])

/-- Attribute names declared on the model by apply_sets_and_params
(sets_and_params.py), in declaration order. -/
def setsAndParamsDecls : List String :=
  ["cost_type_new", "timesteps_ext", "y0", "y_end", "hours", "location", "tech",
   "n", "l", "Installed_Capacity_Q_s", "Existing_Stock_Q_stock", "FT",
   "anti_dumping_index", "deltaQ_EUprimary", "deltaQ_EUsecondary",
   "IR_EU_primary", "IR_EU_secondary", "DR_primary", "DR_secondary",
   "STORAGECOST", "logisticcost", "IMPORTCOST", "EU_primary_costs",
   "EU_secondary_costs", "Q_ext_new", "DCR_solar", "min_stocklvl", "lf_solar",
   "nsteps_sec", "P_sec", "capacityperstep_sec", "gamma_sec",
   "secondary_cap_carryover", "f_scrap", "f_mining", "f_recycling",
   "f_scrap_rec", "f_increase", "capacity_dec_start", "pricereduction_sec_init",
   "cap_prim_prior", "cap_sec_prior", "factor_bess", "scrap_total"]

/-- Attribute names declared on the model by apply_variables (variables.py), in
declaration order. -/
def variablesDecls : List String :=
  ["capacity_ext", "capacity_ext_new", "capacity_ext_imported",
   "capacity_ext_stockout", "capacity_ext_euprimary", "capacity_ext_eusecondary",
   "capacity_ext_stock", "capacity_ext_stock_imported", "sum_outofstock",
   "sum_stock", "anti_dumping_measures", "balance_ext", "balance_import_ext",
   "balance_outofstock_ext", "balance_EU_primary_ext", "balance_EU_secondary_ext",
   "costs_new", "costs_ext_import", "costs_ext_storage", "costs_EU_primary",
   "costs_EU_secondary", "pricereduction_sec", "BD_sec", "capacity_dec",
   "capacity_scrap_dec", "capacity_scrap_rec", "capacity_scrap_total",
   "cost_scrap", "demand_bess", "capacity_secondary_cumulative"]

/-- Extension attribute names declared inline by create_model (model.py): the
same block as sets_and_params.py and variables.py except that the carry-over
parameters (secondary_cap_carryover, pricereduction_sec_init, cap_prim_prior,
cap_sec_prior, factor_bess, scrap_total) and the demand_bess and
capacity_secondary_cumulative variables are absent there. -/
def modelPyExtensionDecls : List String :=
  ["cost_type_new", "timesteps_ext", "y0", "y_end", "hours", "location", "tech",
   "n", "l", "Installed_Capacity_Q_s", "Existing_Stock_Q_stock", "FT",
   "anti_dumping_index", "deltaQ_EUprimary", "deltaQ_EUsecondary",
   "IR_EU_primary", "IR_EU_secondary", "DR_primary", "DR_secondary",
   "STORAGECOST", "logisticcost", "IMPORTCOST", "EU_primary_costs",
   "EU_secondary_costs", "Q_ext_new", "DCR_solar", "min_stocklvl", "lf_solar",
   "nsteps_sec", "P_sec", "capacityperstep_sec", "gamma_sec", "f_scrap",
   "f_mining", "f_recycling", "f_scrap_rec", "f_increase", "capacity_dec_start",
   "pricereduction_sec", "BD_sec", "capacity_ext", "capacity_ext_new",
   "capacity_ext_imported", "capacity_ext_stockout", "capacity_ext_euprimary",
   "capacity_ext_eusecondary", "capacity_ext_stock", "capacity_ext_stock_imported",
   "sum_outofstock", "sum_stock", "anti_dumping_measures", "balance_ext",
   "balance_import_ext", "balance_outofstock_ext", "balance_EU_primary_ext",
   "balance_EU_secondary_ext", "costs_new", "costs_ext_import",
   "costs_ext_storage", "costs_EU_primary", "costs_EU_secondary", "capacity_dec",
   "capacity_scrap_dec", "capacity_scrap_rec", "capacity_scrap_total",
   "cost_scrap"]

/-- The richest attribute environment the repository can build for the extension
constraints: the base-model year set stf plus every extension declaration of
sets_and_params.py and variables.py. -/
def extensionEnv : List String :=
  "stf" :: setsAndParamsDecls ++ variablesDecls

/-- Every extension attribute name declared anywhere in the repository
(sets_and_params.py, variables.py or the inline block of model.py). -/
def allDeclaredNames : List String :=
  extensionEnv ++ modelPyExtensionDecls

/-- Model attribute names referenced by each constraint rule attached by
apply_stockpiling_constraints (stockpile.py, lines 360 to 391), in attachment
order, each the union of the names looked up on m in any branch of the rule's
apply_rule body. -/
def stockpileRuleRefs : List (String × List String) :=
  [("CapacityExtGrowthRule",
    ["y0", "capacity_ext", "Installed_Capacity_Q_s", "capacity_ext_new",
     "capacity_dec"]),
   ("CapacityExtNewRule",
    ["capacity_ext_new", "capacity_ext_imported", "capacity_ext_stockout",
     "capacity_ext_euprimary", "capacity_ext_eusecondary"]),
   ("CapacityExtStockRule",
    ["y0", "capacity_ext_stock", "Existing_Stock_Q_stock",
     "capacity_ext_stock_imported", "capacity_ext_stockout"]),
   ("CapacityExtNewLimitRule",
    ["y0", "capacity_ext_new", "Q_ext_new", "capacity_dec"]),
   ("TimedelayEUPrimaryProductionRule",
    ["y0", "capacity_ext_euprimary", "cap_prim_prior", "deltaQ_EUprimary",
     "IR_EU_primary"]),
   ("TimedelayEUSecondaryProductionRule",
    ["y0", "capacity_ext_eusecondary", "cap_sec_prior", "deltaQ_EUsecondary",
     "IR_EU_secondary"]),
   ("Constraint2EUSecondaryToTotalRule",
    ["l", "y0", "capacity_ext_eusecondary", "DCR_solar", "capacity_ext"]),
   ("ConstraintEUPrimaryToTotalRule",
    ["y0", "capacity_ext_euprimary", "DR_primary", "cap_prim_prior"]),
   ("ConstraintEUSecondaryToSecondaryRule",
    ["y0", "capacity_ext_eusecondary", "DR_secondary", "cap_sec_prior"]),
   ("ConstraintMaxIntoStockRule",
    ["capacity_ext_stock_imported", "capacity_ext_imported"]),
   ("ConstraintBatteryDemandRule",
    ["demand_bess", "factor_bess", "capacity_ext_new", "tech"]),
   ("ConstraintBatteryCapRule",
    ["demand_bess", "capacity_ext_new"]),
   ("ConstraintCarryoverSecondary",
    ["capacity_secondary_cumulative", "total_secondary_cap_inital",
     "capacity_ext_eusecondary", "stf"])]

/-- First attribute lookup that fails when the stockpile constraint rules are
evaluated in attachment order against an environment of declared names. -/
def firstMissingAttr (env : List String) : List (String × List String) → Option String
  | [] => none
  | (_, refs) :: rest =>
    match refs.find? (fun r => decide (r ∉ env)) with
    | some r => some r
    | none => firstMissingAttr env rest

/-- Construction of the stockpile constraint system (apply_stockpiling_constraints
on a concrete model): pyomo evaluates every rule while attaching it, so the first
undeclared attribute reference raises an AttributeError, modelled as an error
value carrying the missing name. -/
def apply_stockpiling_constraints (env : List String) : Except String Unit :=
  match firstMissingAttr env stockpileRuleRefs with
  | some r => Except.error r
  | none => Except.ok ()

/-- C8: constructing the extension constraint system always fails.  Even against
the richest attribute environment the repository can declare, applying the
stockpiling constraints raises an attribute-lookup error, and the failing name is
total_secondary_cap_inital, referenced by ConstraintCarryoverSecondary
(stockpile.py, lines 351 to 357): that name is declared nowhere in the
repository, while the declared carry-over parameter is secondary_cap_carryover
(sets_and_params.py, lines 370 to 374). -/
theorem claim_C8_carryover_lookup_error :
    apply_stockpiling_constraints extensionEnv =
      Except.error "total_secondary_cap_inital" ∧
    "secondary_cap_carryover" ∈ setsAndParamsDecls ∧
    "total_secondary_cap_inital" ∉ allDeclaredNames ∧
    "total_secondary_cap_inital" ∈
      (stockpileRuleRefs.map Prod.snd).flatten.filter
        (fun r => decide (r ∉ extensionEnv)) := by
  refine ⟨by rfl, by decide, by decide, by decide⟩

/-- Sheet names requested, in program order, by the pd.read_excel calls of
read_carry_over_from_excel (run_model.py, lines 16 to 28); extension_only_caps is
read twice there (stock_sheet and detailed_cap_sheet). -/
def requiredCarryOverSheets : List String :=
  ["extension_total_caps", "extension_only_caps", "extension_only_caps", "decom",
   "secondary_cap_sum", "scrap", "extension_balance", "e_pro_in",
   "extension_cost", "us_co2", "pricereduction_sec"]

/-- Sequential sheet reads against a workbook (modelled as the list of its sheet
names): each requested sheet is read exactly once, and the first missing sheet
aborts the whole read with an error naming that sheet, exactly as a failing
pd.read_excel call raises out of read_carry_over_from_excel. -/
def readSheetSeq (file : List String) : List String → Except String Unit
  | [] => Except.ok ()
  | s :: rest => if s ∈ file then readSheetSeq file rest else Except.error s

/-- read_carry_over_from_excel (run_model.py, lines 11 to 157) restricted to its
sheet-access behaviour: one immediate read per requested sheet, no retry, no
timeout, no polling loop anywhere in the function or its callers. -/
def read_carry_over_from_excel (file : List String) : Except String Unit :=
  readSheetSeq file requiredCarryOverSheets

/-- Trace of the sheet reads actually attempted, in order: reading stops right
after the first missing sheet. -/
def readAttemptSeq (file : List String) : List String → List String
  | [] => []
  | s :: rest => if s ∈ file then s :: readAttemptSeq file rest else [s]

/-- All pd.read_excel attempts performed by one call of
read_carry_over_from_excel. -/
def readAttempts (file : List String) : List String :=
  readAttemptSeq file requiredCarryOverSheets

/-- Helper for C9: an errored sequential read names a sheet absent from the
workbook and performed exactly one read attempt on it. -/
theorem readSheetSeq_error_single (file : List String) :
    ∀ sheets s, readSheetSeq file sheets = Except.error s →
      s ∉ file ∧ (readAttemptSeq file sheets).count s = 1 := by
  intro sheets
  induction sheets with
  | nil => intro s hs; exact absurd hs (by simp [readSheetSeq])
  | cons a rest ih =>
      intro s hs
      unfold readSheetSeq at hs
      unfold readAttemptSeq
      by_cases ha : a ∈ file
      · rw [if_pos ha] at hs
        rw [if_pos ha]
        obtain ⟨h1, h2⟩ := ih s hs
        refine ⟨h1, ?_⟩
        rw [List.count_cons]
        have hne : a ≠ s := fun he => h1 (he ▸ ha)
        simp [h2, hne]
      · rw [if_neg ha] at hs
        rw [if_neg ha]
        obtain rfl : a = s := by
          cases hs
          rfl
        simp [List.count_singleton, ha]

/-- Counterexample to C9: reading the carry-over from a workbook that does not
yet contain the expected sheets fails immediately on the very first sheet with a
single read attempt; there is no bounded retry, no polling and no timeout. -/
theorem claim_C9_counterexample :
    read_carry_over_from_excel [] = Except.error "extension_total_caps" ∧
    readAttempts [] = ["extension_total_caps"] ∧
    (readAttempts []).count "extension_total_caps" = 1 := by
  refine ⟨by rfl, by rfl, by rfl⟩

/-- C9 as amended: the carry-over read of run_model.py is a single immediate read
of each expected sheet in a fixed order; whenever it fails it names a sheet that
is absent from the workbook, having attempted exactly one read of that sheet,
with no retry or timeout logic. -/
theorem claim_C9_no_retry (file : List String) (s : String)
    (h : read_carry_over_from_excel file = Except.error s) :
    s ∉ file ∧ (readAttempts file).count s = 1 :=
  readSheetSeq_error_single file requiredCarryOverSheets s h

/-- Witness for the amended C9 at the empty workbook. -/
theorem claim_C9_no_retry_witness :
    "extension_total_caps" ∉ ([] : List String) ∧
    (readAttempts []).count "extension_total_caps" = 1 :=
  claim_C9_no_retry [] "extension_total_caps" (by rfl)

/-- Sheet names written, in program order, by report (report.py, lines 39 to 59);
the optional trailing timeseries sheets depend on report_tuples and none of them
uses a carry-over sheet name. -/
def reportSheets : List String :=
  ["us_BDpri_values", "us_BDsec_values", "extension_only_caps", "extension_cost",
   "extension_total_caps", "extension_balance", "us_co2",
   "extension_only_totalcapacity", "Costs", "Process caps", "Transmission caps",
   "Storage caps"]

/-- C10: reading the carry-over from a result file freshly written by report
fails at the first consumed sheet the export lacks, namely decom; the export is
missing exactly the five consumed sheets decom, secondary_cap_sum, scrap,
e_pro_in and pricereduction_sec, so the claimed writer/reader sheet agreement
does not hold on the code. -/
theorem claim_C10_missing_sheets :
    read_carry_over_from_excel reportSheets = Except.error "decom" ∧
    requiredCarryOverSheets.filter (fun s => decide (s ∉ reportSheets)) =
      ["decom", "secondary_cap_sum", "scrap", "e_pro_in", "pricereduction_sec"] := by
  refine ⟨by rfl, by rfl⟩

end UrbsExt
